import Mathlib

/-!
Verification of the browser-worker core (`src/index.js`): the session
lifecycle registry and the step-execution / result-streaming engine.

The JavaScript source is shallowly embedded: every HTTP handler becomes a
pure Lean function over an explicit session-registry state, the Playwright
page is an abstract state type `σ`, and every Playwright call is a field of
an `Engine σ` record returning `Except String σ` (an exception message, or
the page state after the call). JavaScript truthiness on optional strings
(`x || d`) and nullish coalescing (`x ?? d`) are modelled explicitly.
-/

set_option autoImplicit false

namespace BrowserWorker

/-- JavaScript `s || d` on an optional string: `undefined` and the empty
string are falsy, so both select the default. -/
def jsOr (s : Option String) (d : String) : String :=
  match s with
  | some v => if v = "" then d else v
  | none => d

/-- JavaScript truthiness filter on an optional string: `undefined` and
`""` become `none`, any other string stays. -/
def jsTruthy (s : Option String) : Option String :=
  match s with
  | some v => if v = "" then none else some v
  | none => none

/-- JavaScript `p.catch(() => '')` applied to a fallible string-producing
call: an error is swallowed and replaced by the empty string. -/
def jsCatchStr (e : Except String String) : String :=
  match e with
  | .ok s => s
  | .error _ => ""

/-- One step of a `/run` request body. Field set is the union of the
fields read by the step loop in `src/index.js`; absent JSON fields are
`none`. `delay` is "present" exactly when `typeof delay === 'number'`. -/
structure Step where
  action : Option String := none
  url : Option String := none
  waitUntil : Option String := none
  timeout : Option Nat := none
  delay : Option Int := none
  selector : Option String := none
  selectorTimeout : Option Nat := none
  value : Option String := none
  deriving Repr, DecidableEq

/-- The per-step payload built at the end of each loop iteration
(`{ type:'step', stepIndex, action, screenshotBase64, success, error }`). -/
structure StepResult where
  stepIndex : Nat
  action : String
  screenshotBase64 : Option String
  success : Bool
  error : Option String
  deriving Repr, DecidableEq

/-- The Automation Engine Adapter: the Playwright calls issued by
`src/index.js`, over an abstract page state `σ`. Each call either throws
(an error message) or returns the new page state; `screenshot` and `title`
return data, `url` is the synchronous `page.url()`. -/
structure Engine (σ : Type) where
  goto : σ → String → String → Nat → Except String σ
  waitForSelector : σ → String → Nat → Except String σ
  click : σ → String → Nat → Except String σ
  fill : σ → String → String → Nat → Except String σ
  screenshot : σ → Except String String
  url : σ → String
  title : σ → Except String String
  mouseClick : σ → Int → Int → Except String σ
  mouseWheel : σ → Int → Int → Except String σ
  keyboardType : σ → String → Except String σ
  keyboardPress : σ → String → Except String σ

variable {σ : Type}

/-- The action dispatch inside the step loop's `try` block (everything
before the screenshot): navigate / wait / click / fill branches; any other
action (including `snapshot`) falls through every branch and does nothing.
A thrown `Error` is the `.error` case. The `wait` branch's pure sleep does
not change the page state; note the source checks "neither delay nor
selector" only after performing the waits, which is observationally the
same as checking it when the selector is absent. -/
def runStepAction (eng : Engine σ) (pg : σ) (step : Step) (action : String) :
    Except String σ :=
  if action = "navigate" then
    let url := jsOr step.url "about:blank"
    let waitUntil := jsOr step.waitUntil "load"
    let timeout := step.timeout.getD 60000
    if waitUntil = "domcontentloaded" ∨ waitUntil = "load" ∨ waitUntil = "networkidle" then
      eng.goto pg url waitUntil timeout
    else
      .error ("waitUntil must be domcontentloaded, load, or networkidle, got: " ++ waitUntil)
  else if action = "wait" then
    let selectorTimeout := step.selectorTimeout.getD 15000
    match jsTruthy step.selector with
    | some sel => eng.waitForSelector pg sel selectorTimeout
    | none =>
      if step.delay.isNone then
        .error "wait action requires delay (ms) and/or selector"
      else
        .ok pg
  else if action = "click" then
    match jsTruthy step.selector with
    | none => .error "selector required for click"
    | some sel => eng.click pg sel 10000
  else if action = "fill" then
    match jsTruthy step.selector with
    | none => .error "selector required for fill"
    | some sel => eng.fill pg sel (step.value.getD "") 10000
  else
    .ok pg

/-- One iteration of the step loop: dispatch the action, then take the
screenshot inside the same `try`; on any throw, record the message and
retry the screenshot best-effort (a second failure is swallowed and the
artifact omitted). Returns the step's payload and the page state. -/
def execStep (eng : Engine σ) (pg : σ) (i : Nat) (step : Step) : StepResult × σ :=
  let action := jsOr step.action "snapshot"
  match runStepAction eng pg step action with
  | .ok pg2 =>
    match eng.screenshot pg2 with
    | .ok shot =>
      ({ stepIndex := i, action := action, screenshotBase64 := some shot,
         success := true, error := none }, pg2)
    | .error e =>
      let retry := match eng.screenshot pg2 with
        | .ok s => some s
        | .error _ => none
      ({ stepIndex := i, action := action, screenshotBase64 := retry,
         success := false, error := some e }, pg2)
  | .error e =>
    let shot := match eng.screenshot pg with
      | .ok s => some s
      | .error _ => none
    ({ stepIndex := i, action := action, screenshotBase64 := shot,
       success := false, error := some e }, pg)

/-- The `for (let i = 0; i < steps.length; i++)` loop: execute the steps
sequentially from index `i`, threading the page state, collecting one
payload per step. -/
def runSteps (eng : Engine σ) : σ → List Step → Nat → List StepResult × σ
  | pg, [], _ => ([], pg)
  | pg, s :: rest, i =>
    let p := execStep eng pg i s
    let q := runSteps eng p.2 rest (i + 1)
    (p.1 :: q.1, q.2)

/-- A registry entry: `sessionId -> { browser, context, page, lastUsedAt }`.
The browser and context handles are owned by the entry, and only `page`
and `lastUsedAt` are ever read, so the entry carries just those. -/
structure SessionEntry (σ : Type) where
  page : σ
  lastUsedAt : Nat
  deriving Repr, DecidableEq

/-- The global `sessions` map, in insertion order (a JS `Map`). -/
abbrev Registry (σ : Type) := List (String × SessionEntry σ)

/-- Models `existing.lastUsedAt = Date.now()`: in-place refresh of one entry. -/
def touchSession (reg : Registry σ) (id : String) (now : Nat) : Registry σ :=
  reg.map (fun p => if p.1 = id then (p.1, { p.2 with lastUsedAt := now }) else p)

/-- The run loop mutates the session's page object in place; explicitly,
the final page state is stored back into the entry. -/
def setPage (reg : Registry σ) (id : String) (pg : σ) : Registry σ :=
  reg.map (fun p => if p.1 = id then (p.1, { p.2 with page := pg }) else p)

/-- Models `sessions.get(id)`: first entry with the given key, if any. -/
def findSession (reg : Registry σ) (id : String) : Option (SessionEntry σ) :=
  match reg with
  | [] => none
  | p :: rest => if p.1 = id then some p.2 else findSession rest id

/-- Embeds `closeSession(sessionId)`: look the id up, return silently when absent,
otherwise delete the entry (the browser teardown is fire-and-forget). -/
def closeSession (reg : Registry σ) (id : String) : Registry σ :=
  match findSession reg id with
  | none => reg
  | some _ => reg.filter (fun p => p.1 != id)

/-- Embeds `getOrCreateSession(requestedId)`: a truthy requested id naming a live
entry is refreshed and reused; otherwise a session is created under the
requested id (honored verbatim) or a fresh random id. `launch` is the
outcome of `createNewSession`'s browser launch (page state, or the thrown
message, which propagates). Returns the resolved id, the page and the
updated registry. -/
def getOrCreateSession (launch : Except String σ) (now : Nat) (freshId : String)
    (reg : Registry σ) (requestedId : Option String) :
    Except String (String × σ × Registry σ) :=
  match (jsTruthy requestedId).bind
      (fun rid => (findSession reg rid).map (fun e => (rid, e))) with
  | some (rid, e) => .ok ⟨rid, e.page, touchSession reg rid now⟩
  | none =>
    let id := jsOr requestedId freshId
    match launch with
    | .error msg => .error msg
    | .ok pg => .ok ⟨id, pg, reg ++ [(id, { page := pg, lastUsedAt := now })]⟩

/-- Embeds `checkAuth(req, res)`: with no configured secret every request passes;
otherwise the authorization header must yield a bearer token equal to the
secret. The header's character sequence is compared directly: the token is
the part after the 7-character prefix `"Bearer "`. -/
def checkAuth (secret : Option String) (auth : Option String) : Bool :=
  match secret, auth with
  | none, _ => true
  | some _, none => false
  | some sec, some a =>
    "Bearer ".data.isPrefixOf a.data && a.data.drop 7 == sec.data

/-- The JSON body of `POST /run`: `{ sessionId?, steps }`. `steps = none`
models a missing or non-array field. -/
structure RunBody where
  sessionId : Option String := none
  steps : Option (List Step) := none
  deriving Repr, DecidableEq

/-- A plain JSON reply (`res.status(...).json({...})`): the union of the
fields the handlers put in such replies; absent fields are `none`. -/
structure JsonResp where
  status : Nat
  success : Bool
  error : Option String := none
  steps : List StepResult := []
  sessionId : Option String := none
  message : Option String := none
  screenshotBase64 : Option String := none
  url : Option String := none
  title : Option String := none
  deriving Repr, DecidableEq

/-- The 401 body written by `checkAuth` on a failed match. -/
def unauthorizedResp : JsonResp :=
  { status := 401, success := false, error := some "Unauthorized" }

/-- One server-sent event on a streaming `/run` response: a per-step
`{type:'step', ...}` event or the terminal `{type:'done', ...}` event. -/
inductive SseMsg where
  | step : StepResult → SseMsg
  | done (success : Bool) (error : Option String) (steps : List StepResult)
      (sessionId : Option String) : SseMsg
  deriving Repr, DecidableEq

/-- What `POST /run` sends back: one buffered JSON reply, or the ordered
list of events written to the SSE stream. -/
inductive RunResponse where
  | json : JsonResp → RunResponse
  | sse : List SseMsg → RunResponse
  deriving Repr, DecidableEq

/-- The `POST /run` handler. Auth first; then the steps-array shape checks
(before any session is resolved, and as plain JSON even in stream mode,
since the SSE headers are only set later); then session resolution —
whose failure is the top-level catch path — then the step loop and the
final reply. `now` is `Date.now()`, `freshId` the `randomId()` draw. -/
def handleRun (eng : Engine σ) (launch : Except String σ) (now : Nat)
    (freshId : String) (secret : Option String) (auth : Option String)
    (stream : Bool) (body : Option RunBody) (reg : Registry σ) :
    RunResponse × Registry σ :=
  if checkAuth secret auth = false then
    (.json unauthorizedResp, reg)
  else
    match body.bind (fun b => b.steps) with
    | none =>
      (.json { status := 400, success := false,
               error := some "steps array required (1-15 items)" }, reg)
    | some steps =>
      if steps.length = 0 then
        (.json { status := 400, success := false,
                 error := some "steps array required (1-15 items)" }, reg)
      else if steps.length > 15 then
        (.json { status := 400, success := false, error := some "max 15 steps" }, reg)
      else
        match getOrCreateSession launch now freshId reg
            (body.bind (fun b => b.sessionId)) with
        | .error msg =>
          if stream then
            (.sse [.done false (some msg) [] none], reg)
          else
            (.json { status := 500, success := false, error := some msg }, reg)
        | .ok (sid, pg, reg2) =>
          let r := runSteps eng pg steps 0
          let regF := setPage reg2 sid r.2
          if stream then
            (.sse (r.1.map SseMsg.step ++ [.done true none r.1 (some sid)]), regF)
          else
            (.json { status := 200, success := true, steps := r.1,
                     sessionId := some sid }, regF)

/-- The `DELETE /session/:sessionId` handler: auth, the truthiness check on
the path parameter, then `closeSession` and an unconditional success reply. -/
def handleDelete (secret : Option String) (auth : Option String)
    (sessionId : String) (reg : Registry σ) : JsonResp × Registry σ :=
  if checkAuth secret auth = false then
    (unauthorizedResp, reg)
  else if sessionId = "" then
    ({ status := 400, success := false, error := some "sessionId required" }, reg)
  else
    ({ status := 200, success := true, message := some "Session closed" },
     closeSession reg sessionId)

/-- The `GET /session/:sessionId/screenshot` handler: auth, lookup (404 on
a miss), then screenshot + url + title; only the screenshot can throw into
the 500 branch, since `page.title()` carries its own `.catch(() => '')`.
`now` is the ambient clock (the handler never reads it). -/
def handleScreenshot (eng : Engine σ) (now : Nat) (secret : Option String)
    (auth : Option String) (sessionId : String) (reg : Registry σ) :
    JsonResp × Registry σ :=
  if checkAuth secret auth = false then
    (unauthorizedResp, reg)
  else
    match findSession reg sessionId with
    | none => ({ status := 404, success := false, error := some "Session not found" }, reg)
    | some entry =>
      match eng.screenshot entry.page with
      | .error e => ({ status := 500, success := false, error := some e }, reg)
      | .ok shot =>
        ({ status := 200, success := true, screenshotBase64 := some shot,
           url := some (eng.url entry.page),
           title := some (jsCatchStr (eng.title entry.page)),
           sessionId := some sessionId }, reg)

/-- The `GET /session/:sessionId/info` handler: like the screenshot
handler without the screenshot; `page.url()` is synchronous and
`page.title()` is caught, so the 500 branch is unreachable. -/
def handleInfo (eng : Engine σ) (now : Nat) (secret : Option String)
    (auth : Option String) (sessionId : String) (reg : Registry σ) :
    JsonResp × Registry σ :=
  if checkAuth secret auth = false then
    (unauthorizedResp, reg)
  else
    match findSession reg sessionId with
    | none => ({ status := 404, success := false, error := some "Session not found" }, reg)
    | some entry =>
      ({ status := 200, success := true, url := some (eng.url entry.page),
         title := some (jsCatchStr (eng.title entry.page)),
         sessionId := some sessionId }, reg)

/-- The JSON body of `POST /session/:sessionId/interact`. The numeric
fields are "present" exactly when `typeof x === 'number'`. -/
structure InteractBody where
  action : Option String := none
  x : Option Int := none
  y : Option Int := none
  text : Option String := none
  url : Option String := none
  key : Option String := none
  deriving Repr, DecidableEq

/-- The interact handler's action dispatch: a 400 with the named missing
field on a validation miss, an unknown-action 400 on fall-through, and the
engine call otherwise, whose throw becomes the outer catch's 500. -/
def interactAction (eng : Engine σ) (pg : σ) (b : InteractBody) :
    Except (Nat × String) σ :=
  if b.action = some "click" then
    match b.x, b.y with
    | some x, some y => (eng.mouseClick pg x y).mapError (fun e => (500, e))
    | _, _ => .error (400, "x and y required for click")
  else if b.action = some "type" then
    match b.text with
    | some t => (eng.keyboardType pg t).mapError (fun e => (500, e))
    | none => .error (400, "text required for type")
  else if b.action = some "key" then
    match b.key with
    | some k => (eng.keyboardPress pg k).mapError (fun e => (500, e))
    | none => .error (400, "key required for key action")
  else if b.action = some "navigate" then
    match b.url with
    | some u => (eng.goto pg u "load" 60000).mapError (fun e => (500, e))
    | none => .error (400, "url required for navigate")
  else if b.action = some "scroll" then
    match b.x, b.y with
    | some x, some y => (eng.mouseWheel pg x y).mapError (fun e => (500, e))
    | _, _ => .error (400, "x and y (delta) required for scroll")
  else
    .error (400, "Unknown action: " ++ (b.action.getD "undefined"))

/-- The `POST /session/:sessionId/interact` handler: auth, lookup (404 on
a miss), `lastUsedAt` refreshed before the dispatch, then the action, a
screenshot and the url/title echo. -/
def handleInteract (eng : Engine σ) (now : Nat) (secret : Option String)
    (auth : Option String) (sessionId : String) (body : Option InteractBody)
    (reg : Registry σ) : JsonResp × Registry σ :=
  if checkAuth secret auth = false then
    (unauthorizedResp, reg)
  else
    match findSession reg sessionId with
    | none => ({ status := 404, success := false, error := some "Session not found" }, reg)
    | some entry =>
      let b := body.getD {}
      let reg1 := touchSession reg sessionId now
      match interactAction eng entry.page b with
      | .error (st, msg) => ({ status := st, success := false, error := some msg }, reg1)
      | .ok pg2 =>
        match eng.screenshot pg2 with
        | .error e =>
          ({ status := 500, success := false, error := some e }, setPage reg1 sessionId pg2)
        | .ok shot =>
          ({ status := 200, success := true, screenshotBase64 := some shot,
             url := some (eng.url pg2), title := some (jsCatchStr (eng.title pg2)),
             sessionId := some sessionId }, setPage reg1 sessionId pg2)

/-- The step results carried by a buffered reply (empty for a stream). -/
def bufferedStepList : RunResponse → List StepResult
  | .json r => r.steps
  | .sse _ => []

/-- The step results carried by the per-step events of a stream (empty
for a buffered reply). -/
def streamedStepList : RunResponse → List StepResult
  | .sse evs => evs.filterMap (fun m => match m with
      | .step r => some r
      | .done _ _ _ _ => none)
  | .json _ => []

/-- The `stepIndex` values of the per-step events of an event list. -/
def stepIndices (evs : List SseMsg) : List Nat :=
  evs.filterMap (fun m => match m with
    | .step r => some r.stepIndex
    | .done _ _ _ _ => none)

/-- Recognizes the terminal `{type:'done'}` event. -/
def isDone (m : SseMsg) : Bool :=
  match m with
  | .done _ _ _ _ => true
  | .step _ => false

/-! Section: Concrete instances used by witnesses and counterexamples -/

/-- An engine over the trivial page state whose every call succeeds. -/
def okEngine : Engine Unit where
  goto := fun _ _ _ _ => .ok ()
  waitForSelector := fun _ _ _ => .ok ()
  click := fun _ _ _ => .ok ()
  fill := fun _ _ _ _ => .ok ()
  screenshot := fun _ => .ok "IMG"
  url := fun _ => "https://example.com"
  title := fun _ => .ok "Example"
  mouseClick := fun _ _ _ => .ok ()
  mouseWheel := fun _ _ _ => .ok ()
  keyboardType := fun _ _ => .ok ()
  keyboardPress := fun _ _ => .ok ()

/-- An engine like `okEngine` except that every `click` throws the
no-matching-element error, so the spec's example second step fails. -/
def failClickEngine : Engine Unit :=
  { okEngine with click := fun _ sel _ => .error ("no element matching " ++ sel) }

/-- The spec's example step list: a navigate then a click. -/
def twoSteps : List Step :=
  [{ action := some "navigate", url := some "https://example.com" },
   { action := some "click", selector := some "#missing" }]

/-- A `/run` body carrying `twoSteps` and no session id. -/
def twoStepBody : RunBody := { steps := some twoSteps }

/-- A one-entry registry whose session was last used at time 0. -/
def regOne : Registry Unit := [("s1", { page := (), lastUsedAt := 0 })]

/-! Section: Step-executor lemmas -/

theorem execStep_stepIndex (eng : Engine σ) (pg : σ) (i : Nat) (s : Step) :
    (execStep eng pg i s).1.stepIndex = i := by
  simp only [execStep]
  cases h : runStepAction eng pg s (jsOr s.action "snapshot") with
  | ok pg2 => cases h2 : eng.screenshot pg2 <;> simp [h2]
  | error e => simp

theorem execStep_action (eng : Engine σ) (pg : σ) (i : Nat) (s : Step) :
    (execStep eng pg i s).1.action = jsOr s.action "snapshot" := by
  simp only [execStep]
  cases h : runStepAction eng pg s (jsOr s.action "snapshot") with
  | ok pg2 => cases h2 : eng.screenshot pg2 <;> simp [h2]
  | error e => simp

theorem execStep_success_iff (eng : Engine σ) (pg : σ) (i : Nat) (s : Step) :
    (execStep eng pg i s).1.success = true ↔ (execStep eng pg i s).1.error = none := by
  simp only [execStep]
  cases h : runStepAction eng pg s (jsOr s.action "snapshot") with
  | ok pg2 => cases h2 : eng.screenshot pg2 <;> simp [h2]
  | error e => simp

theorem runSteps_map_stepIndex (eng : Engine σ) (steps : List Step) :
    ∀ (pg : σ) (i : Nat),
      ((runSteps eng pg steps i).1).map (fun r => r.stepIndex)
        = List.range' i steps.length := by
  induction steps with
  | nil => intro pg i; simp [runSteps]
  | cons s rest ih =>
    intro pg i
    simp only [runSteps, List.map_cons, List.length_cons, List.range'_succ _ _ 1,
      execStep_stepIndex, ih]

theorem runSteps_map_action (eng : Engine σ) (steps : List Step) :
    ∀ (pg : σ) (i : Nat),
      ((runSteps eng pg steps i).1).map (fun r => r.action)
        = steps.map (fun s => jsOr s.action "snapshot") := by
  induction steps with
  | nil => intro pg i; simp [runSteps]
  | cons s rest ih =>
    intro pg i
    simp only [runSteps, List.map_cons, execStep_action, ih]

theorem runSteps_length (eng : Engine σ) (steps : List Step) (pg : σ) (i : Nat) :
    (runSteps eng pg steps i).1.length = steps.length := by
  have h := congrArg List.length (runSteps_map_stepIndex eng steps pg i)
  simpa [List.length_range'] using h

theorem runSteps_mem_success_iff (eng : Engine σ) (steps : List Step) :
    ∀ (pg : σ) (i : Nat) (r : StepResult), r ∈ (runSteps eng pg steps i).1 →
      (r.success = true ↔ r.error = none) := by
  induction steps with
  | nil => intro pg i r h; simp [runSteps] at h
  | cons s rest ih =>
    intro pg i r h
    simp only [runSteps, List.mem_cons] at h
    rcases h with h | h
    · subst h; exact execStep_success_iff eng pg i s
    · exact ih _ _ _ h

theorem execStep_failure_fields (eng : Engine σ) (pg : σ) (i : Nat) (s : Step)
    (e : String)
    (h : runStepAction eng pg s (jsOr s.action "snapshot") = .error e) :
    (execStep eng pg i s).1.success = false
      ∧ (execStep eng pg i s).1.error = some e := by
  simp [execStep, h]

theorem runSteps_get_eq_execStep (eng : Engine σ) (steps : List Step) :
    ∀ (pg : σ) (j i : Nat) (hi : i < steps.length),
      ∃ pgB, (runSteps eng pg steps j).1.get? i
        = some (execStep eng pgB (j + i) (steps.get ⟨i, hi⟩)).1 := by
  induction steps with
  | nil => intro pg j i hi; exact absurd hi (Nat.not_lt_zero i)
  | cons s rest ih =>
    intro pg j i hi
    cases i with
    | zero => exact ⟨pg, by simp [runSteps]⟩
    | succ k =>
      obtain ⟨pgB, hB⟩ := ih (execStep eng pg j s).2 (j + 1) k (Nat.lt_of_succ_lt_succ hi)
      refine ⟨pgB, ?_⟩
      have harith : j + 1 + k = j + (k + 1) := by omega
      simpa [runSteps, harith] using hB

/-! Section: Claim theorems -/

/-- C1: for a `/run` request with a valid step list (1 ≤ N ≤ 15) whose
session resolution succeeds, the handler replies with exactly N step
results, whose `stepIndex` values are `0..N-1` in input order and whose
actions align with the input steps, for every engine (so regardless of
individual step outcomes). -/
theorem run_results_one_per_step (eng : Engine σ) (launch : Except String σ)
    (now : Nat) (freshId : String) (secret auth : Option String)
    (body : Option RunBody) (reg : Registry σ) (steps : List Step)
    (sid : String) (pg : σ) (reg2 : Registry σ)
    (hauth : checkAuth secret auth = true)
    (hsteps : body.bind (fun b => b.steps) = some steps)
    (hlo : 1 ≤ steps.length) (hhi : steps.length ≤ 15)
    (hsess : getOrCreateSession launch now freshId reg (body.bind (fun b => b.sessionId))
      = .ok ⟨sid, pg, reg2⟩) :
    ∃ results, (handleRun eng launch now freshId secret auth false body reg).1
        = .json { status := 200, success := true, steps := results, sessionId := some sid }
      ∧ results.length = steps.length
      ∧ results.map (fun r => r.stepIndex) = List.range steps.length
      ∧ results.map (fun r => r.action) = steps.map (fun s => jsOr s.action "snapshot") := by
  refine ⟨(runSteps eng pg steps 0).1, ?_, runSteps_length eng steps pg 0, ?_, ?_⟩
  · simp [handleRun, hauth, hsteps, hsess, Nat.one_le_iff_ne_zero.mp hlo,
      Nat.not_lt.mpr hhi]
  · rw [runSteps_map_stepIndex eng steps pg 0, List.range_eq_range']
  · exact runSteps_map_action eng steps pg 0

theorem run_results_one_per_step_witness :
    checkAuth (none : Option String) none = true
    ∧ (some twoStepBody).bind (fun b => b.steps) = some twoSteps
    ∧ 1 ≤ twoSteps.length ∧ twoSteps.length ≤ 15
    ∧ getOrCreateSession (Except.ok ()) 100 "sess_f" ([] : Registry Unit)
        ((some twoStepBody).bind (fun b => b.sessionId))
        = .ok ⟨"sess_f", (), [("sess_f", { page := (), lastUsedAt := 100 })]⟩
    ∧ (∃ results, (handleRun okEngine (.ok ()) 100 "sess_f" none none false
          (some twoStepBody) []).1
        = .json { status := 200, success := true, steps := results,
                  sessionId := some "sess_f" }
      ∧ results.length = twoSteps.length
      ∧ results.map (fun r => r.stepIndex) = List.range twoSteps.length
      ∧ results.map (fun r => r.action)
          = twoSteps.map (fun s => jsOr s.action "snapshot")) :=
  ⟨rfl, rfl, by decide, by decide, rfl,
   run_results_one_per_step okEngine (.ok ()) 100 "sess_f" none none
     (some twoStepBody) [] twoSteps "sess_f" ()
     [("sess_f", { page := (), lastUsedAt := 100 })]
     rfl rfl (by decide) (by decide) rfl⟩

/-- C2: on the same valid-run path, the run never aborts (one result per
step) and the top-level `success` field is `true` in both delivery modes,
universally in the engine, hence independent of how many steps failed.
Each recorded result is exactly the `execStep` outcome at the page state
the loop reached, so whenever the i-th step's action dispatch throws an
error `e` there, the i-th result is recorded with `success = false` and
that error message; and across all results the `success` flag and the
presence of an error message agree. -/
theorem run_continue_on_step_failure (eng : Engine σ) (launch : Except String σ)
    (now : Nat) (freshId : String) (secret auth : Option String)
    (body : Option RunBody) (reg : Registry σ) (steps : List Step)
    (sid : String) (pg : σ) (reg2 : Registry σ)
    (hauth : checkAuth secret auth = true)
    (hsteps : body.bind (fun b => b.steps) = some steps)
    (hlo : 1 ≤ steps.length) (hhi : steps.length ≤ 15)
    (hsess : getOrCreateSession launch now freshId reg (body.bind (fun b => b.sessionId))
      = .ok ⟨sid, pg, reg2⟩) :
    ∃ results,
      (handleRun eng launch now freshId secret auth false body reg).1
        = .json { status := 200, success := true, steps := results, sessionId := some sid }
      ∧ (handleRun eng launch now freshId secret auth true body reg).1
        = .sse (results.map SseMsg.step ++ [.done true none results (some sid)])
      ∧ results.length = steps.length
      ∧ (∀ (i : Nat) (hi : i < steps.length), ∃ pgB r,
          results.get? i = some r
          ∧ r = (execStep eng pgB i (steps.get ⟨i, hi⟩)).1
          ∧ ∀ e, runStepAction eng pgB (steps.get ⟨i, hi⟩)
                (jsOr (steps.get ⟨i, hi⟩).action "snapshot") = .error e →
              r.success = false ∧ r.error = some e)
      ∧ (∀ r ∈ results, r.success = false → ∃ e, r.error = some e)
      ∧ (∀ r ∈ results, r.success = true → r.error = none) := by
  refine ⟨(runSteps eng pg steps 0).1, ?_, ?_, runSteps_length eng steps pg 0, ?_, ?_, ?_⟩
  · simp [handleRun, hauth, hsteps, hsess, Nat.one_le_iff_ne_zero.mp hlo,
      Nat.not_lt.mpr hhi]
  · simp [handleRun, hauth, hsteps, hsess, Nat.one_le_iff_ne_zero.mp hlo,
      Nat.not_lt.mpr hhi]
  · intro i hi
    obtain ⟨pgB, hB⟩ := runSteps_get_eq_execStep eng steps pg 0 i hi
    refine ⟨pgB, (execStep eng pgB i (steps.get ⟨i, hi⟩)).1, ?_, rfl, ?_⟩
    · simpa using hB
    · intro e he
      exact execStep_failure_fields eng pgB i (steps.get ⟨i, hi⟩) e he
  · intro r hr hfail
    have h := (runSteps_mem_success_iff eng steps pg 0 r hr).not
    simp only [hfail] at h
    cases he : r.error with
    | none => simp [he] at h
    | some e => exact ⟨e, rfl⟩
  · intro r hr hok
    exact (runSteps_mem_success_iff eng steps pg 0 r hr).mp hok

theorem run_continue_on_step_failure_witness :
    checkAuth (none : Option String) none = true
    ∧ (some twoStepBody).bind (fun b => b.steps) = some twoSteps
    ∧ 1 ≤ twoSteps.length ∧ twoSteps.length ≤ 15
    ∧ getOrCreateSession (Except.ok ()) 100 "sess_f" ([] : Registry Unit)
        ((some twoStepBody).bind (fun b => b.sessionId))
        = .ok ⟨"sess_f", (), [("sess_f", { page := (), lastUsedAt := 100 })]⟩
    ∧ (∃ results,
        (handleRun failClickEngine (.ok ()) 100 "sess_f" none none false
            (some twoStepBody) []).1
          = .json { status := 200, success := true, steps := results,
                    sessionId := some "sess_f" }
        ∧ (handleRun failClickEngine (.ok ()) 100 "sess_f" none none true
            (some twoStepBody) []).1
          = .sse (results.map SseMsg.step ++ [.done true none results (some "sess_f")])
        ∧ results.length = twoSteps.length
        ∧ (∀ (i : Nat) (hi : i < twoSteps.length), ∃ pgB r,
            results.get? i = some r
            ∧ r = (execStep failClickEngine pgB i (twoSteps.get ⟨i, hi⟩)).1
            ∧ ∀ e, runStepAction failClickEngine pgB (twoSteps.get ⟨i, hi⟩)
                  (jsOr (twoSteps.get ⟨i, hi⟩).action "snapshot") = .error e →
                r.success = false ∧ r.error = some e)
        ∧ (∀ r ∈ results, r.success = false → ∃ e, r.error = some e)
        ∧ (∀ r ∈ results, r.success = true → r.error = none))
    ∧ (bufferedStepList (handleRun failClickEngine (.ok ()) 100 "sess_f" none none
          false (some twoStepBody) ([] : Registry Unit)).1).map
        (fun r => (r.success, r.error))
      = [(true, none), (false, some "no element matching #missing")] :=
  ⟨rfl, rfl, by decide, by decide, rfl,
   run_continue_on_step_failure failClickEngine (.ok ()) 100 "sess_f" none none
     (some twoStepBody) [] twoSteps "sess_f" ()
     [("sess_f", { page := (), lastUsedAt := 100 })]
     rfl rfl (by decide) (by decide) rfl,
   by decide⟩

/-- C10: a step whose action is absent defaults to `snapshot`, and a step
whose action is any string other than the four dispatched kinds is not
rejected: it falls through every branch and only the screenshot runs, so
(when the screenshot succeeds) its result has `success = true`, no error,
and the page state is untouched. -/
theorem unknown_action_runs_as_snapshot (eng : Engine σ) (pg : σ) (i : Nat)
    (s : Step) (b : String)
    (hact : s.action = none ∨ ∃ a, s.action = some a ∧ a ≠ ""
      ∧ a ≠ "navigate" ∧ a ≠ "wait" ∧ a ≠ "click" ∧ a ≠ "fill")
    (hshot : eng.screenshot pg = .ok b) :
    execStep eng pg i s
      = ({ stepIndex := i, action := jsOr s.action "snapshot",
           screenshotBase64 := some b, success := true, error := none }, pg) := by
  have hrun : runStepAction eng pg s (jsOr s.action "snapshot") = .ok pg := by
    rcases hact with h | ⟨a, ha, hne, h1, h2, h3, h4⟩
    · simp [runStepAction, h, jsOr]
    · simp [runStepAction, ha, jsOr, hne, h1, h2, h3, h4]
  simp only [execStep, hrun, hshot]

theorem unknown_action_runs_as_snapshot_witness :
    ((({ action := some "dance" } : Step).action = none
      ∨ ∃ a, ({ action := some "dance" } : Step).action = some a ∧ a ≠ ""
        ∧ a ≠ "navigate" ∧ a ≠ "wait" ∧ a ≠ "click" ∧ a ≠ "fill")
    ∧ okEngine.screenshot () = .ok "IMG")
    ∧ execStep okEngine () 4 { action := some "dance" }
      = ({ stepIndex := 4, action := jsOr (some "dance") "snapshot",
           screenshotBase64 := some "IMG", success := true, error := none }, ()) :=
  ⟨⟨Or.inr ⟨"dance", rfl, by decide, by decide, by decide, by decide, by decide⟩, rfl⟩,
   unknown_action_runs_as_snapshot okEngine () 4 { action := some "dance" } "IMG"
     (Or.inr ⟨"dance", rfl, by decide, by decide, by decide, by decide, by decide⟩) rfl⟩

/-! Section: Stream-event helpers -/

theorem filterMap_step_events (rs : List StepResult) (b : Bool) (e : Option String)
    (ss : List StepResult) (sid : Option String) :
    (rs.map SseMsg.step ++ [SseMsg.done b e ss sid]).filterMap
      (fun m => match m with | .step r => some r | .done _ _ _ _ => none) = rs := by
  induction rs with
  | nil => simp
  | cons r rest ih => simpa using ih

theorem stepIndices_step_events (rs : List StepResult) (b : Bool) (e : Option String)
    (ss : List StepResult) (sid : Option String) :
    stepIndices (rs.map SseMsg.step ++ [SseMsg.done b e ss sid])
      = rs.map (fun r => r.stepIndex) := by
  induction rs with
  | nil => simp [stepIndices]
  | cons r rest ih => simpa [stepIndices] using ih

theorem filter_isDone_step_events (rs : List StepResult) (d : SseMsg)
    (hd : isDone d = true) :
    (rs.map SseMsg.step ++ [d]).filter isDone = [d] := by
  induction rs with
  | nil => simp [hd]
  | cons r rest ih => simpa [isDone] using ih

/-! Section: C5: steps-shape validation happens before any session work -/

/-- C5: a `/run` request whose steps field is missing, not an array, empty
or longer than 15 entries is answered with a 400 validation error, and the
handler returns with the registry exactly as it was — no session is looked
up or created and no engine call is made (the reply is a plain JSON error
in both delivery modes, since it precedes the SSE headers). -/
theorem run_rejects_bad_steps_before_session (eng : Engine σ)
    (launch : Except String σ) (now : Nat) (freshId : String)
    (secret auth : Option String) (stream : Bool) (body : Option RunBody)
    (reg : Registry σ)
    (hauth : checkAuth secret auth = true)
    (hbad : body.bind (fun b => b.steps) = none
      ∨ ∃ l, body.bind (fun b => b.steps) = some l
          ∧ (l.length = 0 ∨ 15 < l.length)) :
    ∃ e, handleRun eng launch now freshId secret auth stream body reg
      = (.json { status := 400, success := false, error := some e }, reg) := by
  rcases hbad with h | ⟨l, hl, h0 | h15⟩
  · exact ⟨"steps array required (1-15 items)", by simp [handleRun, hauth, h]⟩
  · exact ⟨"steps array required (1-15 items)", by simp [handleRun, hauth, hl, h0]⟩
  · have hne : l.length ≠ 0 := by omega
    exact ⟨"max 15 steps", by simp [handleRun, hauth, hl, hne, h15]⟩

theorem run_rejects_bad_steps_before_session_witness :
    checkAuth (none : Option String) none = true
    ∧ ((some ({ steps := some [] } : RunBody)).bind (fun b => b.steps) = none
      ∨ ∃ l, (some ({ steps := some [] } : RunBody)).bind (fun b => b.steps) = some l
          ∧ (l.length = 0 ∨ 15 < l.length))
    ∧ (∃ e, handleRun okEngine (.ok ()) 100 "sess_f" none none false
          (some { steps := some [] }) ([] : Registry Unit)
        = (.json { status := 400, success := false, error := some e }, [])) :=
  ⟨rfl, Or.inr ⟨[], rfl, Or.inl rfl⟩,
   run_rejects_bad_steps_before_session okEngine (.ok ()) 100 "sess_f" none none
     false (some { steps := some [] }) [] rfl (Or.inr ⟨[], rfl, Or.inl rfl⟩)⟩

/-! Section: C7: streaming order and the terminal event -/

/-- C7: in streaming mode, for an authorized request with a valid step
list, the handler writes the per-step events in strictly increasing
`stepIndex` order and exactly one terminal `done` event — carrying the
overall success flag, the aggregate list of exactly the streamed step
results, and the session id — as the last event, on both the success path
and the top-level-error path (any `launch` outcome). -/
theorem stream_events_ordered_with_terminal (eng : Engine σ)
    (launch : Except String σ) (now : Nat) (freshId : String)
    (secret auth : Option String) (body : Option RunBody) (reg : Registry σ)
    (steps : List Step)
    (hauth : checkAuth secret auth = true)
    (hsteps : body.bind (fun b => b.steps) = some steps)
    (hlo : 1 ≤ steps.length) (hhi : steps.length ≤ 15) :
    ∃ evs, (handleRun eng launch now freshId secret auth true body reg).1 = .sse evs
      ∧ List.Pairwise (· < ·) (stepIndices evs)
      ∧ (evs.filter isDone).length = 1
      ∧ (∃ b e sid, evs.getLast? = some (.done b e (streamedStepList (.sse evs)) sid)) := by
  have h0 := Nat.one_le_iff_ne_zero.mp hlo
  have h15 := Nat.not_lt.mpr hhi
  cases hsess : getOrCreateSession launch now freshId reg
      (body.bind (fun b => b.sessionId)) with
  | error msg =>
    refine ⟨[.done false (some msg) [] none], ?_, ?_, ?_, ?_⟩
    · simp [handleRun, hauth, hsteps, h0, h15, hsess]
    · simp [stepIndices]
    · simp [isDone]
    · exact ⟨false, some msg, none, by simp [streamedStepList]⟩
  | ok t =>
    obtain ⟨sid, pg, reg2⟩ := t
    refine ⟨(runSteps eng pg steps 0).1.map SseMsg.step
        ++ [.done true none (runSteps eng pg steps 0).1 (some sid)], ?_, ?_, ?_, ?_⟩
    · simp [handleRun, hauth, hsteps, h0, h15, hsess]
    · rw [stepIndices_step_events, runSteps_map_stepIndex, ← List.range_eq_range']
      exact List.pairwise_lt_range _
    · rw [filter_isDone_step_events (runSteps eng pg steps 0).1
        (SseMsg.done true none (runSteps eng pg steps 0).1 (some sid)) rfl]
      rfl
    · refine ⟨true, none, some sid, ?_⟩
      have hsl : streamedStepList (.sse ((runSteps eng pg steps 0).1.map SseMsg.step
          ++ [.done true none (runSteps eng pg steps 0).1 (some sid)]))
          = (runSteps eng pg steps 0).1 := by
        simp only [streamedStepList]
        exact filterMap_step_events _ true none _ (some sid)
      rw [hsl]
      simp

theorem stream_events_ordered_with_terminal_witness :
    checkAuth (none : Option String) none = true
    ∧ (some twoStepBody).bind (fun b => b.steps) = some twoSteps
    ∧ 1 ≤ twoSteps.length ∧ twoSteps.length ≤ 15
    ∧ (∃ evs, (handleRun okEngine (.ok ()) 100 "sess_f" none none true
          (some twoStepBody) ([] : Registry Unit)).1 = .sse evs
        ∧ List.Pairwise (· < ·) (stepIndices evs)
        ∧ (evs.filter isDone).length = 1
        ∧ (∃ b e sid, evs.getLast? = some (.done b e (streamedStepList (.sse evs)) sid))) :=
  ⟨rfl, rfl, by decide, by decide,
   stream_events_ordered_with_terminal okEngine (.ok ()) 100 "sess_f" none none
     (some twoStepBody) [] twoSteps rfl rfl (by decide) (by decide)⟩

/-! Section: C8: buffered and streamed deliveries agree on the step outcomes -/

/-- C8: for any `/run` request whatsoever, the ordered step-result list of
the buffered reply equals the ordered list of step results carried by the
per-step events of the streaming reply for the same input — the two
delivery modes produce the same sequence of step outcomes. -/
theorem buffered_matches_streamed (eng : Engine σ) (launch : Except String σ)
    (now : Nat) (freshId : String) (secret auth : Option String)
    (body : Option RunBody) (reg : Registry σ) :
    bufferedStepList (handleRun eng launch now freshId secret auth false body reg).1
      = streamedStepList (handleRun eng launch now freshId secret auth true body reg).1 := by
  cases hca : checkAuth secret auth with
  | false => simp [handleRun, hca, bufferedStepList, streamedStepList, unauthorizedResp]
  | true =>
    cases hst : body.bind (fun b => b.steps) with
    | none => simp [handleRun, hca, hst, bufferedStepList, streamedStepList]
    | some steps =>
      by_cases h0 : steps.length = 0
      · simp [handleRun, hca, hst, h0, bufferedStepList, streamedStepList]
      · by_cases h15 : steps.length > 15
        · simp [handleRun, hca, hst, h0, h15, bufferedStepList, streamedStepList]
        · cases hsess : getOrCreateSession launch now freshId reg
              (body.bind (fun b => b.sessionId)) with
          | error msg =>
            simp [handleRun, hca, hst, h0, h15, hsess, bufferedStepList, streamedStepList]
          | ok t =>
            obtain ⟨sid, pg, reg2⟩ := t
            have hb : (handleRun eng launch now freshId secret auth false body reg).1
                = .json { status := 200, success := true,
                          steps := (runSteps eng pg steps 0).1, sessionId := some sid } := by
              simp [handleRun, hca, hst, h0, h15, hsess]
            have hs : (handleRun eng launch now freshId secret auth true body reg).1
                = .sse ((runSteps eng pg steps 0).1.map SseMsg.step
                    ++ [.done true none (runSteps eng pg steps 0).1 (some sid)]) := by
              simp [handleRun, hca, hst, h0, h15, hsess]
            rw [hb, hs]
            simp only [bufferedStepList, streamedStepList]
            exact (filterMap_step_events _ true none _ (some sid)).symm

/-! Section: Registry lemmas -/

theorem findSession_filter_ne (reg : Registry σ) (id : String) :
    findSession (reg.filter (fun p => p.1 != id)) id = none := by
  induction reg with
  | nil => rfl
  | cons p rest ih =>
    by_cases h : p.1 = id
    · simpa [List.filter_cons, h] using ih
    · simpa [List.filter_cons, h, findSession] using ih

theorem findSession_touchSession (reg : Registry σ) (id : String) (now : Nat) :
    findSession (touchSession reg id now) id
      = (findSession reg id).map (fun e => { e with lastUsedAt := now }) := by
  induction reg with
  | nil => rfl
  | cons p rest ih =>
    by_cases h : p.1 = id
    · simp [touchSession, findSession, h]
    · simpa [touchSession, findSession, h] using ih

theorem findSession_setPage_lastUsedAt (reg : Registry σ) (id id2 : String) (pg : σ) :
    ((findSession (setPage reg id pg) id2).map (fun e => e.lastUsedAt))
      = ((findSession reg id2).map (fun e => e.lastUsedAt)) := by
  induction reg with
  | nil => rfl
  | cons p rest ih =>
    by_cases h : p.1 = id <;> by_cases h2 : p.1 = id2 <;>
      simp_all [setPage, findSession]

/-! Section: C9: closing a session is idempotent -/

/-- C9: `closeSession` on an id absent from the registry is a no-op that
never errors; closing the same id twice changes the registry exactly as
closing it once; and a `DELETE /session/:id` for an id never created
returns a plain success reply with the registry unchanged. -/
theorem close_session_idempotent (σ' : Type) :
    (∀ (reg : Registry σ') (id : String), findSession reg id = none →
      closeSession reg id = reg)
    ∧ (∀ (reg : Registry σ') (id : String),
      closeSession (closeSession reg id) id = closeSession reg id)
    ∧ (∀ (secret auth : Option String) (id : String) (reg : Registry σ'),
      checkAuth secret auth = true → id ≠ "" → findSession reg id = none →
      handleDelete secret auth id reg
        = ({ status := 200, success := true, message := some "Session closed" }, reg)) := by
  have habsent : ∀ (reg : Registry σ') (id : String), findSession reg id = none →
      closeSession reg id = reg := by
    intro reg id h
    simp [closeSession, h]
  refine ⟨habsent, ?_, ?_⟩
  · intro reg id
    cases hl : findSession reg id with
    | none => simp only [habsent reg id hl]
    | some e =>
      have h1 : closeSession reg id = reg.filter (fun p => p.1 != id) := by
        simp [closeSession, hl]
      rw [h1]
      exact habsent _ id (findSession_filter_ne reg id)
  · intro secret auth id reg hauth hid hl
    simp [handleDelete, hauth, hid, habsent reg id hl]

theorem close_session_idempotent_witness :
    (findSession regOne "nope" = none
      ∧ closeSession regOne "nope" = regOne
      ∧ closeSession (closeSession regOne "s1") "s1" = closeSession regOne "s1")
    ∧ (checkAuth (none : Option String) none = true ∧ "abc" ≠ ""
      ∧ findSession ([] : Registry Unit) "abc" = none
      ∧ handleDelete (none : Option String) none "abc" ([] : Registry Unit)
        = ({ status := 200, success := true, message := some "Session closed" }, [])) :=
  ⟨⟨by decide, (close_session_idempotent Unit).1 regOne "nope" (by decide),
    (close_session_idempotent Unit).2.1 regOne "s1"⟩,
   ⟨rfl, by decide, rfl,
    (close_session_idempotent Unit).2.2 none none "abc" [] rfl (by decide) rfl⟩⟩

/-! Section: C6: the auth gate -/

theorem checkAuth_some_true_iff (sec : String) (auth : Option String) :
    checkAuth (some sec) auth = true ↔ auth = some ("Bearer " ++ sec) := by
  constructor
  · intro h
    cases auth with
    | none => simp [checkAuth] at h
    | some a =>
      simp only [checkAuth, Bool.and_eq_true, List.isPrefixOf_iff_prefix,
        beq_iff_eq] at h
      obtain ⟨⟨t, ht⟩, hdrop⟩ := h
      have h7 : ("Bearer ".data).length = 7 := by decide
      have hta : a.data = "Bearer ".data ++ t := ht.symm
      have htt : t = sec.data := by
        rw [← hdrop, hta, ← h7, List.drop_left]
      apply congrArg some
      apply String.ext
      rw [String.data_append, hta, htt]
  · intro h
    subst h
    simp only [checkAuth, Bool.and_eq_true, List.isPrefixOf_iff_prefix, beq_iff_eq]
    constructor
    · exact ⟨sec.data, (String.data_append _ _).symm⟩
    · have h7 : ("Bearer ".data).length = 7 := by decide
      rw [String.data_append, ← h7, List.drop_left]

/-- C6: with a configured secret, every request whose authorization header
is absent or differs from exactly `Bearer <secret>` is answered 401 by
each authenticated endpoint before any session lookup or creation — the
registry is returned unchanged by all five handlers — and with no secret
configured, `checkAuth` passes every request. -/
theorem auth_gate_blocks_before_session (eng : Engine σ)
    (launch : Except String σ) (now : Nat) (freshId : String) (sec : String)
    (auth : Option String) (stream : Bool) (body : Option RunBody)
    (sessionId : String) (ibody : Option InteractBody) (reg : Registry σ)
    (hne : auth ≠ some ("Bearer " ++ sec)) :
    handleRun eng launch now freshId (some sec) auth stream body reg
        = (.json unauthorizedResp, reg)
    ∧ handleDelete (some sec) auth sessionId reg = (unauthorizedResp, reg)
    ∧ handleScreenshot eng now (some sec) auth sessionId reg = (unauthorizedResp, reg)
    ∧ handleInfo eng now (some sec) auth sessionId reg = (unauthorizedResp, reg)
    ∧ handleInteract eng now (some sec) auth sessionId ibody reg = (unauthorizedResp, reg)
    ∧ (∀ h, checkAuth none h = true) := by
  have hfalse : checkAuth (some sec) auth = false := by
    cases hc : checkAuth (some sec) auth
    · rfl
    · exact absurd ((checkAuth_some_true_iff sec auth).mp hc) hne
  exact ⟨by simp [handleRun, hfalse], by simp [handleDelete, hfalse],
    by simp [handleScreenshot, hfalse], by simp [handleInfo, hfalse],
    by simp [handleInteract, hfalse], fun _ => rfl⟩

theorem auth_gate_blocks_before_session_witness :
    (some "Bearer wrong" ≠ some ("Bearer " ++ "tok"))
    ∧ handleRun okEngine (.ok ()) 100 "sess_f" (some "tok") (some "Bearer wrong")
        false (some twoStepBody) regOne = (.json unauthorizedResp, regOne) :=
  ⟨by decide,
   (auth_gate_blocks_before_session okEngine (.ok ()) 100 "sess_f" "tok"
     (some "Bearer wrong") false (some twoStepBody) "s1" none regOne (by decide)).1⟩

/-! Section: C3: a navigate step without a url is not a validation failure -/

/-- C3 counterexample: a `/run` request whose single step is `navigate`
with no `url` field does not record a validation failure — against an
engine whose calls all succeed, the step's result has `success = true`
and no error message (the observed pair `(success, error)` is
`(true, none)`, not `(false, some _)` as the claim requires). -/
theorem navigate_missing_url_cex :
    (bufferedStepList (handleRun okEngine (.ok ()) 100 "sess_f" none none false
        (some { steps := some [{ action := some "navigate" }] })
        ([] : Registry Unit)).1).map (fun r => (r.success, r.error))
      = [(true, none)] := by decide

/-- C3 amended: a navigate step whose `url` is absent is not a validation
failure: the target defaults to `about:blank` (with the default `load`
completion policy when `waitUntil` is also absent) and the step dispatches
a real `goto`; when the engine's goto and the screenshot succeed, the
step's result is successful with no error. Only an invalid `waitUntil`
value is a navigate validation failure. -/
theorem navigate_missing_url_defaults (eng : Engine σ) (pg pg2 : σ) (i : Nat)
    (s : Step) (b : String)
    (hact : s.action = some "navigate") (hurl : s.url = none)
    (hwu : s.waitUntil = none) :
    runStepAction eng pg s "navigate"
        = eng.goto pg "about:blank" "load" (s.timeout.getD 60000)
    ∧ (eng.goto pg "about:blank" "load" (s.timeout.getD 60000) = .ok pg2 →
        eng.screenshot pg2 = .ok b →
        (execStep eng pg i s).1.success = true ∧ (execStep eng pg i s).1.error = none) := by
  have h1 : runStepAction eng pg s "navigate"
      = eng.goto pg "about:blank" "load" (s.timeout.getD 60000) := by
    simp [runStepAction, hurl, hwu, jsOr]
  refine ⟨h1, fun hg hs => ?_⟩
  have hact' : jsOr s.action "snapshot" = "navigate" := by simp [jsOr, hact]
  simp [execStep, hact', h1, hg, hs]

theorem navigate_missing_url_defaults_witness :
    (({ action := some "navigate" } : Step).action = some "navigate"
      ∧ ({ action := some "navigate" } : Step).url = none
      ∧ ({ action := some "navigate" } : Step).waitUntil = none
      ∧ okEngine.goto () "about:blank" "load"
          (({ action := some "navigate" } : Step).timeout.getD 60000) = .ok ()
      ∧ okEngine.screenshot () = .ok "IMG")
    ∧ runStepAction okEngine () { action := some "navigate" } "navigate"
        = okEngine.goto () "about:blank" "load" 60000
    ∧ (execStep okEngine () 0 { action := some "navigate" }).1.success = true
    ∧ (execStep okEngine () 0 { action := some "navigate" }).1.error = none :=
  ⟨⟨rfl, rfl, rfl, rfl, rfl⟩,
   (navigate_missing_url_defaults okEngine () () 0 { action := some "navigate" }
      "IMG" rfl rfl rfl).1,
   (navigate_missing_url_defaults okEngine () () 0 { action := some "navigate" }
      "IMG" rfl rfl rfl).2 rfl rfl⟩

/-! Section: C4: which operations refresh `lastUsedAt` -/

/-- C4 counterexample: the read-only screenshot endpoint touches a live
session at time 100 yet leaves its `lastUsedAt` at 0 — the handler returns
the registry unchanged, so not every session-touching operation refreshes
the timestamp (the info endpoint behaves the same). -/
theorem screenshot_no_refresh_cex :
    ((findSession (handleScreenshot okEngine 100 none none "s1" regOne).2 "s1").map
        (fun e => e.lastUsedAt) = some 0)
    ∧ ((findSession (handleInfo okEngine 100 none none "s1" regOne).2 "s1").map
        (fun e => e.lastUsedAt) = some 0)
    ∧ (0 : Nat) ≠ 100 := by
  refine ⟨by decide, by decide, by decide⟩

/-- C4 amended: only `POST /session/:id/interact` and `/run` session reuse
refresh `lastUsedAt`. The read-only `GET /session/:id/screenshot` and
`GET /session/:id/info` handlers return the registry unchanged on every
path; interact sets the touched session's `lastUsedAt` to the current time
on every post-lookup path (even validation failures); and reusing an
existing id through `getOrCreateSession` does the same. -/
theorem lastUsedAt_refresh_policy (σ' : Type) :
    (∀ (eng : Engine σ') (now : Nat) (secret auth : Option String) (id : String)
        (reg : Registry σ'),
      (handleScreenshot eng now secret auth id reg).2 = reg)
    ∧ (∀ (eng : Engine σ') (now : Nat) (secret auth : Option String) (id : String)
        (reg : Registry σ'),
      (handleInfo eng now secret auth id reg).2 = reg)
    ∧ (∀ (eng : Engine σ') (now : Nat) (secret auth : Option String) (id : String)
        (body : Option InteractBody) (reg : Registry σ') (e : SessionEntry σ'),
      checkAuth secret auth = true → findSession reg id = some e →
      ((findSession (handleInteract eng now secret auth id body reg).2 id).map
          (fun s => s.lastUsedAt)) = some now)
    ∧ (∀ (launch : Except String σ') (now : Nat) (freshId : String)
        (reg : Registry σ') (rid : String) (e : SessionEntry σ'),
      findSession reg rid = some e → rid ≠ "" →
      getOrCreateSession launch now freshId reg (some rid)
          = .ok ⟨rid, e.page, touchSession reg rid now⟩
        ∧ ((findSession (touchSession reg rid now) rid).map
            (fun s => s.lastUsedAt)) = some now) := by
  refine ⟨?_, ?_, ?_, ?_⟩
  · intro eng now secret auth id reg
    unfold handleScreenshot
    split
    · rfl
    · split
      · rfl
      · split <;> rfl
  · intro eng now secret auth id reg
    unfold handleInfo
    split
    · rfl
    · split <;> rfl
  · intro eng now secret auth id body reg e hauth hfind
    have htouch : (findSession (touchSession reg id now) id).map
        (fun s => s.lastUsedAt) = some now := by
      rw [findSession_touchSession, hfind]
      rfl
    simp only [handleInteract, hauth, hfind]
    cases hi : interactAction eng e.page (body.getD {}) with
    | error p =>
      obtain ⟨st, msg⟩ := p
      simpa using htouch
    | ok pg2 =>
      cases hs : eng.screenshot pg2 with
      | error msg => simpa [hs, findSession_setPage_lastUsedAt] using htouch
      | ok shot => simpa [hs, findSession_setPage_lastUsedAt] using htouch
  · intro launch now freshId reg rid e hfind hrid
    constructor
    · simp [getOrCreateSession, jsTruthy, hrid, hfind]
    · rw [findSession_touchSession, hfind]
      rfl

theorem lastUsedAt_refresh_policy_witness :
    ((handleScreenshot okEngine 100 none none "s1" regOne).2 = regOne)
    ∧ ((handleInfo okEngine 100 none none "s1" regOne).2 = regOne)
    ∧ (checkAuth (none : Option String) none = true
      ∧ findSession regOne "s1" = some { page := (), lastUsedAt := 0 }
      ∧ ((findSession (handleInteract okEngine 100 none none "s1"
            (some { action := some "click", x := some 1, y := some 2 }) regOne).2
          "s1").map (fun s => s.lastUsedAt)) = some 100)
    ∧ (getOrCreateSession (Except.ok ()) 100 "fresh" regOne (some "s1")
        = .ok ⟨"s1", (), touchSession regOne "s1" 100⟩) :=
  ⟨(lastUsedAt_refresh_policy Unit).1 okEngine 100 none none "s1" regOne,
   (lastUsedAt_refresh_policy Unit).2.1 okEngine 100 none none "s1" regOne,
   ⟨rfl, by decide,
    (lastUsedAt_refresh_policy Unit).2.2.1 okEngine 100 none none "s1"
      (some { action := some "click", x := some 1, y := some 2 }) regOne
      { page := (), lastUsedAt := 0 } rfl (by decide)⟩,
   ((lastUsedAt_refresh_policy Unit).2.2.2 (Except.ok ()) 100 "fresh" regOne "s1"
      { page := (), lastUsedAt := 0 } (by decide) (by decide)).1⟩

end BrowserWorker
